import Mathlib

/-!
Verification development for the regcheck asynchronous job orchestration layer.

The definitions below are a shallow embedding of the TypeScript sources:

* `netlify/functions/_shared/job-store.ts` (job records, `readJobRecord`,
  `writeJobRecord`, `mergeJobRecord`) together with the fuller variant of the
  same module that adds the three-tier blob/file/memory backend fallback
  (`resolveStore`, `createFileStore`).
* the launcher function (`regcheck-start`) and the background executor
  (`regcheck-background`).
* `src/lib/regcheck-jobs.ts` (`runValidationJob`: submission check, poll loop,
  backoff intervals).

Modelling conventions:
* ISO-8601 timestamps are modelled as natural numbers (milliseconds since
  epoch); `new Date().toISOString()` becomes an explicit `now : Nat` argument.
* JavaScript objects with possibly-missing properties become structures with
  `Option` fields; a `none` field models the property being absent.  (A JS
  property explicitly set to `undefined` is not distinguished from an absent
  one in this model; none of the verified claims depends on that distinction.)
* `unknown` JSON payloads are modelled by the inductive `Json` type, and the
  outcome of `JSON.parse` on a response body is carried as an explicit
  `Option Json` field of the modelled HTTP response.
* Asynchronous store access becomes explicit state passing: the blob store is
  a function `String → Option JobRecord` and every mutation returns the new
  store.
-/

namespace Regcheck

/-- A model of JSON values (`unknown` payloads in the TypeScript sources). -/
inductive Json where
  | null
  | bool (b : Bool)
  | num (n : Int)
  | str (s : String)
  | arr (elems : List Json)
  | obj (fields : List (String × Json))

/-- First binding for a key in a JSON object's field list, modelling
JavaScript property access on a parsed JSON object. -/
def lookupField : List (String × Json) → String → Option Json
  | [], _ => none
  | (k, v) :: rest, key => if k = key then some v else lookupField rest key

mutual

/-- Model of JavaScript string coercion `String(v)` for JSON values. -/
def jsString : Json → String
  | Json.null => "null"
  | Json.bool true => "true"
  | Json.bool false => "false"
  | Json.num n => toString n
  | Json.str s => s
  | Json.arr elems => String.intercalate "," (jsStringItems elems)
  | Json.obj _ => "[object Object]"

/-- Array elements under JavaScript `String(...)`: `null` renders empty. -/
def jsStringItems : List Json → List String
  | [] => []
  | Json.null :: rest => "" :: jsStringItems rest
  | e :: rest => jsString e :: jsStringItems rest

end

/-- Model of JavaScript truthiness for JSON values. -/
def jsTruthy : Json → Bool
  | Json.null => false
  | Json.bool b => b
  | Json.num n => n != 0
  | Json.str s => s != ""
  | Json.arr _ => true
  | Json.obj _ => true

/-- Type `JobStatus` from `job-store.ts`:
`"pending" | "running" | "completed" | "failed"`. -/
inductive JobStatus where
  | pending
  | running
  | completed
  | failed
deriving DecidableEq, Repr

/-- The terminal-status test used on line 125 of `job-store.ts`:
`merged.status === "completed" || merged.status === "failed"`. -/
def JobStatus.isTerminal : JobStatus → Bool
  | JobStatus.completed => true
  | JobStatus.failed => true
  | _ => false

/-- Type `JobResult` from `job-store.ts`. -/
structure JobResult where
  status : Nat
  statusText : Option String := none
  body : Option Json := none
  rawBody : Option String := none
  weightBytes : Option Nat := none

/-- Type `JobError` from `job-store.ts`. -/
structure JobError where
  message : String
  details : Option Json := none

/-- The `request` sub-object of a `JobRecord`. -/
structure RequestInfo where
  endpoint : String
  method : String
  metadata : Option Json := none

/-- The `metrics` sub-object of a `JobRecord` (all fields optional). -/
structure Metrics where
  durationMs : Option Nat := none

/-- Type `JobRecord` from `job-store.ts`, with timestamps as epoch milliseconds. -/
structure JobRecord where
  jobId : String
  status : JobStatus
  startedAt : Nat
  updatedAt : Nat
  completedAt : Option Nat := none
  request : RequestInfo
  result : Option JobResult := none
  error : Option JobError := none
  metrics : Option Metrics := none

/-- A patch for the `request` sub-object.  Each `none` field models a property
that is absent from the patch object, so the JS spread
`{ ...existing.request, ...(patch.request ?? {}) }` keeps the existing
value for it. -/
structure RequestPatch where
  endpoint : Option String := none
  method : Option String := none
  metadata : Option Json := none

/-- The argument type of `mergeJobRecord` in `job-store.ts`; each `none`
field models a property absent from the patch object. -/
structure JobPatch where
  jobId : Option String := none
  status : Option JobStatus := none
  startedAt : Option Nat := none
  updatedAt : Option Nat := none
  completedAt : Option Nat := none
  request : Option RequestPatch := none
  result : Option JobResult := none
  error : Option JobError := none
  metrics : Option Metrics := none

/-- The durable store, as the key/value map the blob backend exposes. -/
def Store : Type := String → Option JobRecord

/-- The store with no records. -/
def emptyStore : Store := fun _ => none

/-- Function `readJobRecord` from `job-store.ts`: returns `null` for a falsy (empty)
`jobId`, otherwise looks the key up in the store. -/
def readJobRecord (store : Store) (jobId : String) : Option JobRecord :=
  if jobId = "" then none else store jobId

/-- Function `writeJobRecord` from `job-store.ts`: `store.setJSON(jobId, record)`. -/
def writeJobRecord (store : Store) (jobId : String) (record : JobRecord) :
    Store :=
  fun key => if key = jobId then some record else store key

/-- The fresh `pending` skeleton synthesized by `mergeJobRecord` when no
record exists (lines 100-109 of `job-store.ts`). -/
def freshJobRecord (jobId : String) (now : Nat) : JobRecord :=
  { jobId := jobId
    status := JobStatus.pending
    startedAt := now
    updatedAt := now
    request := { endpoint := "unknown", method := "POST" } }

/-- The deep merge of the `request` sub-object:
`{ ...existing.request, ...(patch.request ?? {}) }`. -/
def mergeRequest (existing : RequestInfo) (patchReq : Option RequestPatch) :
    RequestInfo :=
  match patchReq with
  | none => existing
  | some rp =>
      { endpoint := rp.endpoint.getD existing.endpoint
        method := rp.method.getD existing.method
        metadata :=
          match rp.metadata with
          | some m => some m
          | none => existing.metadata }

/-- The deep merge of the `metrics` sub-object:
`{ ...existing.metrics, ...(patch.metrics ?? {}) }` (always yields an
object). -/
def mergeMetrics (existing : Option Metrics) (patchMet : Option Metrics) :
    Metrics :=
  { durationMs :=
      match patchMet with
      | some pm =>
          match pm.durationMs with
          | some d => some d
          | none => existing.bind Metrics.durationMs
      | none => existing.bind Metrics.durationMs }

/-- The pure merge computation of `mergeJobRecord` (lines 111-127 of
`job-store.ts`): shallow top-level spread of the patch over the existing
record, deep merge of `request` and `metrics`, then `updatedAt := now`
(the source overwrites the spread value on line 124) and the terminal
`completedAt := completedAt ?? updatedAt` rule (lines 125-127). -/
def mergeRecord (existing : JobRecord) (patch : JobPatch) (now : Nat) :
    JobRecord :=
  let merged : JobRecord :=
    { jobId := patch.jobId.getD existing.jobId
      status := patch.status.getD existing.status
      startedAt := patch.startedAt.getD existing.startedAt
      updatedAt := now
      completedAt :=
        match patch.completedAt with
        | some c => some c
        | none => existing.completedAt
      request := mergeRequest existing.request patch.request
      result :=
        match patch.result with
        | some r => some r
        | none => existing.result
      error :=
        match patch.error with
        | some e => some e
        | none => existing.error
      metrics := some (mergeMetrics existing.metrics patch.metrics) }
  if merged.status.isTerminal then
    { merged with completedAt := some (merged.completedAt.getD now) }
  else merged

/-- Function `mergeJobRecord` from `job-store.ts`: read the existing record (or
synthesize the pending skeleton), merge the patch, persist and return the
merged record. -/
def mergeJobRecord (store : Store) (jobId : String) (patch : JobPatch)
    (now : Nat) : Store × JobRecord :=
  let existing := (readJobRecord store jobId).getD (freshJobRecord jobId now)
  let merged := mergeRecord existing patch now
  (writeJobRecord store jobId merged, merged)

/-- Function `deleteJobRecord` from `job-store.ts`. -/
def deleteJobRecord (store : Store) (jobId : String) : Store :=
  fun key => if key = jobId then none else store key

/-- The stored records observed after each patch of a sequence of
`mergeJobRecord` calls against the same `jobId` (each returned record is
exactly what was just persisted under that key). -/
def jobTrace (jobId : String) (store : Store) :
    List (JobPatch × Nat) → List JobRecord
  | [] => []
  | step :: rest =>
      let res := mergeJobRecord store jobId step.1 step.2
      res.2 :: jobTrace jobId res.1 rest

/-! ### Store backend resolution and the file-backed fallback

Embedded from the job-store variant with the three-tier fallback (the module
exporting `createBlobStore`, `createFileStore`, `createMemoryStore` and
`resolveStore`): the blob backend is tried first; if its initializer throws
(for example `MissingBlobsEnvironmentError` when the Netlify Blobs environment
is absent), a warning is logged once and the file-backed JSON store is used;
the in-memory map is used only if the file store initializer also throws. -/

/-- Outcome of a backend initializer: success, or a thrown error carrying
`error.name`. -/
inductive InitResult where
  | ok
  | err (name : String)
deriving DecidableEq, Repr

/-- The three storage backends of the fallback chain. -/
inductive StoreBackend where
  | blob
  | file
  | memory
deriving DecidableEq, Repr

/-- Function `resolveStore`: try `createBlobStore()`; on a thrown error fall back to
`createFileStore()`; if that also throws, fall back to the in-memory store.
No initializer error propagates to the caller. -/
def resolveStore (blobInit fileInit : InitResult) : StoreBackend :=
  match blobInit with
  | InitResult.ok => StoreBackend.blob
  | InitResult.err _ =>
      match fileInit with
      | InitResult.ok => StoreBackend.file
      | InitResult.err _ => StoreBackend.memory

/-- The parsed content of the fallback JSON file: one JSON object keyed by
`jobId` (`readAll`/`writeAll` serialize it as a whole). -/
def FileData : Type := List (String × JobRecord)

/-- JavaScript object assignment `data[key] = value` on the parsed file
content: replaces the existing binding or appends a new one. -/
def fileAssign : List (String × JobRecord) → String → JobRecord →
    List (String × JobRecord)
  | [], key, value => [(key, value)]
  | (k, v) :: rest, key, value =>
      if k = key then (key, value) :: rest
      else (k, v) :: fileAssign rest key value

/-- Operation `createFileStore().setJSON`: read the whole file, assign the key, write
the whole file back. -/
def fileSetJSON (data : FileData) (key : String) (value : JobRecord) :
    FileData :=
  fileAssign data key value

/-- Operation `createFileStore().getJSON`: read the whole file and return
`data[key] ?? null`. -/
def fileGetJSON (data : FileData) (key : String) : Option JobRecord :=
  match data with
  | [] => none
  | (k, v) :: rest => if k = key then some v else fileGetJSON rest key

/-! ### The background executor (`regcheck-background`)

The executor marks the record `running`, performs the upstream call, then
merges a terminal patch built from the upstream response (success path,
non-2xx failure path, or thrown-exception path). -/

/-- Predicate `Response.ok` of the fetch API: status in the inclusive range 200-299. -/
def responseOk (status : Nat) : Bool :=
  decide (200 ≤ status ∧ status ≤ 299)

/-- The upstream HTTP response as observed by the executor: status line, the
body read as text, and the outcome of attempting `JSON.parse` on that text
(`none` when the text is empty or fails to parse). -/
structure UpstreamResponse where
  status : Nat
  statusText : String
  text : String
  parsed : Option Json

/-- The executor's failure message: the `message` field of the parsed body
when the parsed body is a truthy object that has one, else the generic
status-N message (`regcheck-background`, non-2xx branch). -/
def extractUpstreamErrorMessage (parsed : Option Json) (status : Nat) :
    String :=
  match parsed with
  | some (Json.obj fields) =>
      match lookupField fields "message" with
      | some v => jsString v
      | none => "Upstream request failed with status " ++ toString status
  | _ => "Upstream request failed with status " ++ toString status

/-- The `running` patch the executor merges before the upstream call. -/
def executorRunningPatch (jobId : String) : JobPatch :=
  { jobId := some jobId, status := some JobStatus.running }

/-- The patch the executor merges when the upstream response is non-2xx:
`status: failed`, extracted `error.message`, `error.details` from the parsed
body (else the raw text), a best-effort `result`, and the duration metric. -/
def executorFailurePatch (jobId : String) (resp : UpstreamResponse)
    (durationMs : Nat) : JobPatch :=
  { jobId := some jobId
    status := some JobStatus.failed
    error := some
      { message := extractUpstreamErrorMessage resp.parsed resp.status
        details := some (resp.parsed.getD (Json.str resp.text)) }
    result := some
      { status := resp.status
        statusText := if resp.statusText = "" then none else some resp.statusText
        rawBody := if resp.text = "" then none else some resp.text }
    metrics := some { durationMs := some durationMs } }

/-- The patch the executor merges when the upstream response is 2xx. -/
def executorCompletedPatch (jobId : String) (resp : UpstreamResponse)
    (durationMs : Nat) : JobPatch :=
  { jobId := some jobId
    status := some JobStatus.completed
    result := some
      { status := resp.status
        statusText := if resp.statusText = "" then none else some resp.statusText
        body := resp.parsed
        rawBody := if resp.text = "" then none else some resp.text
        weightBytes := if resp.text = "" then none else some resp.text.utf8ByteSize }
    metrics := some { durationMs := some durationMs } }

/-- The patch the executor merges when the upstream call throws:
`status: failed` with the exception's message and the duration metric. -/
def executorCaughtPatch (jobId : String) (errMessage : String)
    (durationMs : Nat) : JobPatch :=
  { jobId := some jobId
    status := some JobStatus.failed
    error := some { message := errMessage }
    metrics := some { durationMs := some durationMs } }

/-- The executor's terminal write for an upstream response: the completed
patch for a 2xx response, the failure patch otherwise, merged into the
store. -/
def executorRecordOutcome (store : Store) (jobId : String)
    (resp : UpstreamResponse) (durationMs now : Nat) : Store × JobRecord :=
  if responseOk resp.status then
    mergeJobRecord store jobId (executorCompletedPatch jobId resp durationMs) now
  else
    mergeJobRecord store jobId (executorFailurePatch jobId resp durationMs) now

/-! ### The launcher (`regcheck-start`)

After writing the initial `pending` record, the launcher fires the trigger
call to the background executor.  If the trigger response is not accepted
(`!backgroundResponse.ok && backgroundResponse.status !== 202`) it merges a
`failed` record and only then answers 502; otherwise it answers 202. -/

/-- The launcher's HTTP reply, reduced to the fields the spec talks about. -/
structure HttpReply where
  statusCode : Nat
  message : Option String := none
  jobId : Option String := none
deriving DecidableEq, Repr

/-- The launcher's descriptive error message for a rejected trigger call. -/
def enqueueFailureMessage (status : Nat) : String :=
  "Failed to enqueue background job (status " ++ toString status ++ ")"

/-- The `failed` patch the launcher merges when the trigger call is not
accepted. -/
def launcherFailurePatch (jobId : String) (status : Nat) : JobPatch :=
  { jobId := some jobId
    status := some JobStatus.failed
    error := some { message := enqueueFailureMessage status } }

/-- The launcher's behavior after the trigger call returns, as a function of
the trigger response status: on a non-accepted status, first merge the
`failed` record, then respond 502; on an accepted status, respond 202. -/
def launcherAfterTrigger (store : Store) (jobId : String)
    (triggerStatus now : Nat) : Store × HttpReply :=
  if !responseOk triggerStatus && triggerStatus != 202 then
    let res := mergeJobRecord store jobId (launcherFailurePatch jobId triggerStatus) now
    (res.1,
      { statusCode := 502
        message := some "Failed to enqueue background job"
        jobId := some jobId })
  else
    (store, { statusCode := 202, jobId := some jobId })

/-- Outcome of the trigger call's `await fetch(...)`: the promise either
resolves with a response carrying an HTTP status, or rejects with an
exception (transport failure). -/
inductive TriggerOutcome where
  | response (status : Nat)
  | exception (message : String)
deriving DecidableEq, Repr

/-- The launcher's behavior across both trigger outcomes.  The source wraps
the trigger fetch in no try/catch, so a rejected fetch propagates out of the
handler as an exception with the store untouched; a resolved fetch proceeds
through the status check of `launcherAfterTrigger`. -/
def launcherRunTrigger (store : Store) (jobId : String)
    (outcome : TriggerOutcome) (now : Nat) : Store × Except String HttpReply :=
  match outcome with
  | TriggerOutcome.exception e => (store, Except.error e)
  | TriggerOutcome.response status =>
      let res := launcherAfterTrigger store jobId status now
      (res.1, Except.ok res.2)

/-! ### The client poller (`src/lib/regcheck-jobs.ts`, `runValidationJob`)

Intervals and the timeout are in milliseconds.  They are modelled over `ℚ`
because the backoff factor is 1.4; on the concrete values reached from the
default seed the ideal rational computation coincides with the source's
double-precision one. -/

/-- Constant `DEFAULT_POLL_INTERVAL_MS = 1500`. -/
def DEFAULT_POLL_INTERVAL_MS : ℚ := 1500

/-- Constant `MAX_POLL_INTERVAL_MS = 5000`. -/
def MAX_POLL_INTERVAL_MS : ℚ := 5000

/-- Constant `BACKOFF_FACTOR = 1.4`. -/
def BACKOFF_FACTOR : ℚ := 7 / 5

/-- Constant `DEFAULT_TIMEOUT_MS = 14 * 60 * 1000`. -/
def DEFAULT_TIMEOUT_MS : ℚ := 14 * 60 * 1000

/-- The loop seed `attemptInterval = Math.max(500, pollIntervalMs)`
(line 133 of `regcheck-jobs.ts`). -/
def initialAttemptInterval (pollIntervalMs : ℚ) : ℚ :=
  max 500 pollIntervalMs

/-- The backoff update
`Math.min(MAX_POLL_INTERVAL_MS, attemptInterval * BACKOFF_FACTOR)`. -/
def nextInterval (interval : ℚ) : ℚ :=
  min MAX_POLL_INTERVAL_MS (interval * BACKOFF_FACTOR)

/-- The sequence of wait intervals produced by iterating the backoff update
from a seed. -/
def backoffSeq (init : ℚ) : ℕ → ℚ
  | 0 => init
  | n + 1 => nextInterval (backoffSeq init n)

/-- The submission acceptance test
`startResponse.ok || startResponse.status === 202` (line 106). -/
def submissionAccepted (status : Nat) : Bool :=
  responseOk status || status == 202

/-- The launcher response as observed by `runValidationJob`: status, body
text, and the outcome of attempting `JSON.parse` on that text. -/
structure StartResponse where
  status : Nat
  text : String
  parsed : Option Json

/-- The submission error message (lines 107-118): the parsed body's truthy
`message` when present, else the generic
`Failed to start validation job (status N)` default. -/
def startFailureMessage (resp : StartResponse) : String :=
  let dflt := "Failed to start validation job (status " ++ toString resp.status ++ ")"
  match resp.parsed with
  | some (Json.obj fields) =>
      match lookupField fields "message" with
      | some v => if jsTruthy v then jsString v else dflt
      | none => dflt
  | _ => dflt

/-- Outcome of the submission phase of `runValidationJob`. -/
inductive SubmissionResult where
  | rejected (message : String)
  | accepted
deriving DecidableEq, Repr

/-- The submission phase of `runValidationJob`: an accepted launcher status
proceeds to polling, any other status throws a submission error and never
polls. -/
def checkSubmission (resp : StartResponse) : SubmissionResult :=
  if submissionAccepted resp.status then SubmissionResult.accepted
  else SubmissionResult.rejected (startFailureMessage resp)

/-- One status poll's response, as distinguished by the loop: a 404, another
non-ok status (with body text), or an ok response carrying a record. -/
inductive StatusReply where
  | notFound
  | httpError (status : Nat) (text : String)
  | record (r : JobRecord)

/-- How the loop leaves its `while (true)`: timeout, cancellation, a fatal
poll error, or a terminal record. -/
inductive PollOutcome where
  | timedOut
  | abortedPoll
  | fatalError (message : String)
  | finished (r : JobRecord)

/-- The fatal poll error message
`text || Unexpected status response (N)` (line 157). -/
def statusErrorText (status : Nat) (text : String) : String :=
  if text = "" then "Unexpected status response (" ++ toString status ++ ")"
  else text

/-- One iteration's reaction to the status response (lines 149-167): a 404
waits and backs off like a non-terminal record; a non-ok status is fatal; a
terminal record finishes.  `Sum.inr` carries the next
`(elapsed, attemptInterval)` state after `delay(attemptInterval)` and the
backoff update. -/
def pollStep (reply : StatusReply) (elapsed interval : ℚ) :
    PollOutcome ⊕ (ℚ × ℚ) :=
  match reply with
  | StatusReply.notFound => Sum.inr (elapsed + interval, nextInterval interval)
  | StatusReply.httpError status text =>
      Sum.inl (PollOutcome.fatalError (statusErrorText status text))
  | StatusReply.record r =>
      if r.status.isTerminal then Sum.inl (PollOutcome.finished r)
      else Sum.inr (elapsed + interval, nextInterval interval)

/-- The poll loop of `runValidationJob` (lines 135-168), with fuel making the
recursion well-founded: each iteration checks the abort signal, then the
`Date.now() - startedAt > timeoutMs` timeout, then polls.  `signal k` and
`replies k` are the abort flag and the status response at iteration `k`;
`elapsed` is the time since submission (time advances by the waited
interval). -/
def pollLoopAux (signal : ℕ → Bool) (replies : ℕ → StatusReply)
    (timeoutMs : ℚ) : ℕ → ℕ → ℚ → ℚ → Option PollOutcome
  | 0, _, _, _ => none
  | fuel + 1, k, elapsed, interval =>
      if signal k then some PollOutcome.abortedPoll
      else if timeoutMs < elapsed then some PollOutcome.timedOut
      else
        match pollStep (replies k) elapsed interval with
        | Sum.inl outcome => some outcome
        | Sum.inr next =>
            pollLoopAux signal replies timeoutMs fuel (k + 1) next.1 next.2

/-- The poll loop started the way `runValidationJob` starts it: iteration 0,
zero elapsed time, and `attemptInterval = Math.max(500, pollIntervalMs)`. -/
def runPollLoop (signal : ℕ → Bool) (replies : ℕ → StatusReply)
    (timeoutMs pollIntervalMs : ℚ) (fuel : ℕ) : Option PollOutcome :=
  pollLoopAux signal replies timeoutMs fuel 0 0
    (initialAttemptInterval pollIntervalMs)

/-- The list of wait intervals `delay(attemptInterval)` actually slept by the
poll loop, in order. -/
def pollWaits (signal : ℕ → Bool) (replies : ℕ → StatusReply)
    (timeoutMs : ℚ) : ℕ → ℕ → ℚ → ℚ → List ℚ
  | 0, _, _, _ => []
  | fuel + 1, k, elapsed, interval =>
      if signal k then []
      else if timeoutMs < elapsed then []
      else
        match pollStep (replies k) elapsed interval with
        | Sum.inl _ => []
        | Sum.inr next =>
            interval :: pollWaits signal replies timeoutMs fuel (k + 1) next.1 next.2

/-- The wait intervals of the poll loop as started by `runValidationJob`. -/
def runPollWaits (signal : ℕ → Bool) (replies : ℕ → StatusReply)
    (timeoutMs pollIntervalMs : ℚ) (fuel : ℕ) : List ℚ :=
  pollWaits signal replies timeoutMs fuel 0 0
    (initialAttemptInterval pollIntervalMs)

/-- A status response that keeps the loop polling: a 404 or a record that is
not yet terminal. -/
def nonTerminalReply (reply : StatusReply) : Prop :=
  reply = StatusReply.notFound ∨
    ∃ r, reply = StatusReply.record r ∧ r.status.isTerminal = false

/-! ### Concrete sample inputs used by counterexamples and witnesses -/

/-- A stored record that has already reached the terminal `completed`
status. -/
def terminalRecordSample : JobRecord :=
  { jobId := "job-1"
    status := JobStatus.completed
    startedAt := 1
    updatedAt := 2
    completedAt := some 2
    request := { endpoint := "/x", method := "POST" } }

/-- The initial `pending` record the launcher has written for a job before
firing the trigger call. -/
def pendingRecordSample : JobRecord :=
  { jobId := "job-8"
    status := JobStatus.pending
    startedAt := 1
    updatedAt := 1
    request := { endpoint := "/x", method := "POST" } }

/-- The end-to-end failure scenario's upstream response: HTTP 500 whose body
parses to the object with a `message` field. -/
def invalidIngredientResponse : UpstreamResponse :=
  { status := 500
    statusText := "Internal Server Error"
    text := "\x7b\"message\":\"invalid ingredient id\"\x7d"
    parsed := some (Json.obj [("message", Json.str "invalid ingredient id")]) }

/-- An existing record with `request.endpoint` and `metrics.durationMs`
already set, used to exercise the deep-merge frame property. -/
def deepMergeSampleRecord : JobRecord :=
  { jobId := "job-2"
    status := JobStatus.running
    startedAt := 1
    updatedAt := 2
    request := { endpoint := "/x", method := "POST" }
    metrics := some { durationMs := some 7 } }

/-- A patch whose `metrics` object is present but omits `durationMs` and
whose `request` object is absent. -/
def deepMergeSamplePatch : JobPatch :=
  { metrics := some { durationMs := none } }

/-- The relation between consecutive stored records that captures the
`completedAt = completedAt ?? updatedAt` bookkeeping: once set, `completedAt`
is carried over unchanged; otherwise it is assigned the new `updatedAt`
exactly when the new status is terminal. -/
def completedAtStep (a b : JobRecord) : Prop :=
  b.completedAt =
    if a.completedAt.isSome then a.completedAt
    else if b.status.isTerminal then some b.updatedAt else none

end Regcheck

namespace Regcheck

/-! ### Helper lemmas about the store and the merge computation -/

theorem readJobRecord_writeJobRecord (store : Store) (jobId : String)
    (r : JobRecord) (h : jobId ≠ "") :
    readJobRecord (writeJobRecord store jobId r) jobId = some r := by
  simp [readJobRecord, writeJobRecord, h]

theorem mergeJobRecord_read (store : Store) (jobId : String) (p : JobPatch)
    (t : Nat) (h : jobId ≠ "") :
    readJobRecord (mergeJobRecord store jobId p t).1 jobId
      = some (mergeJobRecord store jobId p t).2 :=
  readJobRecord_writeJobRecord _ _ _ h

theorem mergeJobRecord_of_read_some (store : Store) (jobId : String)
    (p : JobPatch) (t : Nat) (r0 : JobRecord)
    (h : readJobRecord store jobId = some r0) :
    mergeJobRecord store jobId p t
      = (writeJobRecord store jobId (mergeRecord r0 p t), mergeRecord r0 p t) := by
  unfold mergeJobRecord
  rw [h]
  rfl

theorem mergeJobRecord_of_read_none (store : Store) (jobId : String)
    (p : JobPatch) (t : Nat) (h : readJobRecord store jobId = none) :
    mergeJobRecord store jobId p t
      = (writeJobRecord store jobId (mergeRecord (freshJobRecord jobId t) p t),
         mergeRecord (freshJobRecord jobId t) p t) := by
  unfold mergeJobRecord
  rw [h]
  rfl

theorem mergeRecord_updatedAt (r : JobRecord) (p : JobPatch) (t : Nat) :
    (mergeRecord r p t).updatedAt = t := by
  unfold mergeRecord
  dsimp only
  split <;> rfl

theorem mergeRecord_status (r : JobRecord) (p : JobPatch) (t : Nat) :
    (mergeRecord r p t).status = p.status.getD r.status := by
  unfold mergeRecord
  dsimp only
  split <;> rfl

theorem mergeRecord_completedAt_of_some (r : JobRecord) (p : JobPatch)
    (t c : Nat) (hp : p.completedAt = none) (hr : r.completedAt = some c) :
    (mergeRecord r p t).completedAt = some c := by
  unfold mergeRecord
  dsimp only
  rw [hp, hr]
  split <;> rfl

theorem mergeRecord_completedAt_of_none (r : JobRecord) (p : JobPatch)
    (t : Nat) (hp : p.completedAt = none) (hr : r.completedAt = none) :
    (mergeRecord r p t).completedAt
      = if (p.status.getD r.status).isTerminal then some t else none := by
  unfold mergeRecord
  dsimp only
  rw [hp, hr]
  split <;> simp_all

theorem completedAtStep_of_merge (r : JobRecord) (p : JobPatch) (t : Nat)
    (hp : p.completedAt = none) :
    completedAtStep r (mergeRecord r p t) := by
  unfold completedAtStep
  cases hr : r.completedAt with
  | some c =>
      rw [mergeRecord_completedAt_of_some r p t c hp hr]
      simp [hr]
  | none =>
      rw [mergeRecord_completedAt_of_none r p t hp hr]
      simp [hr, mergeRecord_status, mergeRecord_updatedAt]

theorem chain_snd_of_chain' :
    ∀ (l : List (JobPatch × Nat)) (x : JobPatch × Nat),
      List.Chain' (fun a b => a.2 ≤ b.2) (x :: l) →
      List.Chain (fun a b => a ≤ b) x.2 (l.map Prod.snd) := by
  intro l
  induction l with
  | nil => intro x _; exact List.Chain.nil
  | cons y rest ih =>
      intro x h
      rw [List.chain'_cons] at h
      exact List.Chain.cons h.1 (ih y h.2)

theorem jobTrace_updatedAt_chain (jobId : String) (hid : jobId ≠ "") :
    ∀ (steps : List (JobPatch × Nat)) (store : Store) (r0 : JobRecord),
      readJobRecord store jobId = some r0 →
      List.Chain (fun a b => a ≤ b) r0.updatedAt (steps.map Prod.snd) →
      List.Chain' (fun a b => a.updatedAt ≤ b.updatedAt)
        (r0 :: jobTrace jobId store steps) := by
  intro steps
  induction steps with
  | nil =>
      intro store r0 _ _
      simp [jobTrace]
  | cons step rest ih =>
      intro store r0 hread hchain
      obtain ⟨p, t⟩ := step
      simp only [List.map_cons] at hchain
      rw [List.chain_cons] at hchain
      simp only [jobTrace]
      rw [mergeJobRecord_of_read_some store jobId p t r0 hread]
      have hread2 :
          readJobRecord (writeJobRecord store jobId (mergeRecord r0 p t)) jobId
            = some (mergeRecord r0 p t) :=
        readJobRecord_writeJobRecord store jobId _ hid
      have htail := ih (writeJobRecord store jobId (mergeRecord r0 p t))
        (mergeRecord r0 p t) hread2
        (by rw [mergeRecord_updatedAt]; exact hchain.2)
      exact List.Chain'.cons
        (by rw [mergeRecord_updatedAt]; exact hchain.1) htail

theorem jobTrace_completedAt_chain (jobId : String) (hid : jobId ≠ "") :
    ∀ (steps : List (JobPatch × Nat)) (store : Store) (r0 : JobRecord),
      readJobRecord store jobId = some r0 →
      (∀ s ∈ steps, (Prod.fst s).completedAt = none) →
      List.Chain' completedAtStep (r0 :: jobTrace jobId store steps) := by
  intro steps
  induction steps with
  | nil =>
      intro store r0 _ _
      simp [jobTrace]
  | cons step rest ih =>
      intro store r0 hread hnone
      obtain ⟨p, t⟩ := step
      simp only [jobTrace]
      rw [mergeJobRecord_of_read_some store jobId p t r0 hread]
      have hp : p.completedAt = none := hnone (p, t) (List.mem_cons_self _ _)
      have hread2 :
          readJobRecord (writeJobRecord store jobId (mergeRecord r0 p t)) jobId
            = some (mergeRecord r0 p t) :=
        readJobRecord_writeJobRecord store jobId _ hid
      have htail := ih (writeJobRecord store jobId (mergeRecord r0 p t))
        (mergeRecord r0 p t) hread2
        (fun s hs => hnone s (List.mem_cons_of_mem _ hs))
      exact List.Chain'.cons (completedAtStep_of_merge r0 p t hp) htail

theorem mergeRecord_request (r : JobRecord) (p : JobPatch) (t : Nat) :
    (mergeRecord r p t).request = mergeRequest r.request p.request := by
  unfold mergeRecord
  dsimp only
  split <;> rfl

theorem mergeRecord_metrics (r : JobRecord) (p : JobPatch) (t : Nat) :
    (mergeRecord r p t).metrics = some (mergeMetrics r.metrics p.metrics) := by
  unfold mergeRecord
  dsimp only
  split <;> rfl

/-! ### Claim C1 -/

/-- C1, counterexample: a record stored with the terminal status `completed`
is not immutable under `mergeJobRecord`: a subsequent merge-patch carrying
`status: running` changes the stored record, moving its status out of
`completed`. -/
theorem mergeJobRecord_mutates_terminal_record :
    readJobRecord (writeJobRecord emptyStore "job-1" terminalRecordSample) "job-1"
        = some terminalRecordSample
    ∧ terminalRecordSample.status = JobStatus.completed
    ∧ (readJobRecord
        (mergeJobRecord (writeJobRecord emptyStore "job-1" terminalRecordSample)
          "job-1" { status := some JobStatus.running } 5).1 "job-1").map JobRecord.status
        = some JobStatus.running
    ∧ JobStatus.running ≠ JobStatus.completed := by
  exact ⟨rfl, rfl, rfl, by decide⟩

/-- C1 (amended): `mergeJobRecord` does not enforce terminal immutability — a
merge-patch to a `completed`/`failed` record is applied like any other and can
change the record (see the counterexample).  What the code does guarantee for
terminal records is that `completedAt`, once set, is preserved by every patch
that does not itself carry a `completedAt` property, and the merged record is
what gets stored. -/
theorem mergeJobRecord_terminal_completedAt_preserved
    (store : Store) (jobId : String) (p : JobPatch) (t c : Nat) (r : JobRecord)
    (hid : jobId ≠ "")
    (hread : readJobRecord store jobId = some r)
    (_hterm : r.status.isTerminal = true)
    (hc : r.completedAt = some c)
    (hp : p.completedAt = none) :
    readJobRecord (mergeJobRecord store jobId p t).1 jobId
        = some (mergeJobRecord store jobId p t).2
    ∧ (mergeJobRecord store jobId p t).2.completedAt = some c := by
  refine ⟨mergeJobRecord_read store jobId p t hid, ?_⟩
  rw [mergeJobRecord_of_read_some store jobId p t r hread]
  exact mergeRecord_completedAt_of_some r p t c hp hc

/-- C1, witness for the amended theorem at a concrete terminal record. -/
theorem mergeJobRecord_terminal_completedAt_preserved_witness :
    readJobRecord
        (mergeJobRecord (writeJobRecord emptyStore "job-1" terminalRecordSample)
          "job-1" { status := some JobStatus.running } 5).1 "job-1"
        = some (mergeJobRecord (writeJobRecord emptyStore "job-1" terminalRecordSample)
          "job-1" { status := some JobStatus.running } 5).2
    ∧ (mergeJobRecord (writeJobRecord emptyStore "job-1" terminalRecordSample)
        "job-1" { status := some JobStatus.running } 5).2.completedAt = some 2 :=
  mergeJobRecord_terminal_completedAt_preserved
    (writeJobRecord emptyStore "job-1" terminalRecordSample) "job-1"
    { status := some JobStatus.running } 5 2 terminalRecordSample
    (by decide) rfl rfl rfl rfl

/-! ### Claim C3 -/

/-- C3: merge-patch deep-merges `request` and `metrics` instead of replacing
them: any field omitted by the patch's `request` (resp. `metrics`) sub-object
keeps its existing value, and in particular the spec's example — patching
`\x7b metrics: \x7b durationMs: 5 \x7d \x7d` after
`\x7b request: \x7b endpoint: "/x" \x7d \x7d` — yields a record carrying both
fields. -/
theorem mergeJobRecord_deep_merges_request_and_metrics
    (r : JobRecord) (p : JobPatch) (t : Nat) :
    ((p.request.bind RequestPatch.endpoint = none →
        (mergeRecord r p t).request.endpoint = r.request.endpoint)
     ∧ (p.request.bind RequestPatch.method = none →
        (mergeRecord r p t).request.method = r.request.method)
     ∧ (p.request.bind RequestPatch.metadata = none →
        (mergeRecord r p t).request.metadata = r.request.metadata)
     ∧ (∀ d : Nat, p.metrics.bind Metrics.durationMs = none →
          r.metrics.bind Metrics.durationMs = some d →
          (mergeRecord r p t).metrics.bind Metrics.durationMs = some d))
    ∧ ((mergeRecord
          (mergeRecord (freshJobRecord "job-3" 0)
            { request := some { endpoint := some "/x" } } 1)
          { metrics := some { durationMs := some 5 } } 2).request.endpoint = "/x"
       ∧ (mergeRecord
            (mergeRecord (freshJobRecord "job-3" 0)
              { request := some { endpoint := some "/x" } } 1)
            { metrics := some { durationMs := some 5 } } 2).metrics.bind
              Metrics.durationMs = some 5) := by
  refine ⟨⟨?_, ?_, ?_, ?_⟩, rfl, rfl⟩
  · intro h
    rw [mergeRecord_request]
    cases hpr : p.request with
    | none => rfl
    | some rp =>
        rw [hpr] at h
        simp only [Option.some_bind] at h
        simp [mergeRequest, h]
  · intro h
    rw [mergeRecord_request]
    cases hpr : p.request with
    | none => rfl
    | some rp =>
        rw [hpr] at h
        simp only [Option.some_bind] at h
        simp [mergeRequest, h]
  · intro h
    rw [mergeRecord_request]
    cases hpr : p.request with
    | none => rfl
    | some rp =>
        rw [hpr] at h
        simp only [Option.some_bind] at h
        simp [mergeRequest, h]
  · intro d h hd
    rw [mergeRecord_metrics]
    cases hpm : p.metrics with
    | none => simpa [mergeMetrics] using hd
    | some pm =>
        rw [hpm] at h
        simp only [Option.some_bind] at h
        simpa [mergeMetrics, h] using hd

/-- C3, witness: a concrete record with `request.endpoint = "/x"` and
`metrics.durationMs = 7`, patched with a `metrics` object omitting
`durationMs` and no `request` object, keeps all four fields. -/
theorem mergeJobRecord_deep_merges_request_and_metrics_witness :
    (mergeRecord deepMergeSampleRecord deepMergeSamplePatch 9).request.endpoint = "/x"
    ∧ (mergeRecord deepMergeSampleRecord deepMergeSamplePatch 9).request.method = "POST"
    ∧ (mergeRecord deepMergeSampleRecord deepMergeSamplePatch 9).request.metadata = none
    ∧ (mergeRecord deepMergeSampleRecord deepMergeSamplePatch 9).metrics.bind
        Metrics.durationMs = some 7 :=
  have h := mergeJobRecord_deep_merges_request_and_metrics
    deepMergeSampleRecord deepMergeSamplePatch 9
  ⟨h.1.1 rfl, h.1.2.1 rfl, h.1.2.2.1 rfl, h.1.2.2.2 7 rfl rfl⟩

/-! ### Claim C4 -/

/-- C4: when the executor's upstream call returns HTTP 500 with body
`\x7b"message":"invalid ingredient id"\x7d`, the record it writes has status
`failed`, `error.message` equal to `invalid ingredient id` (extracted from
the parsed body's `message` field), and `result.status` equal to 500. -/
theorem executor_upstream_500_writes_failed
    (store : Store) (jobId : String) (durationMs now : Nat)
    (hid : jobId ≠ "") :
    readJobRecord
        (executorRecordOutcome store jobId invalidIngredientResponse durationMs now).1
        jobId
      = some (executorRecordOutcome store jobId invalidIngredientResponse durationMs now).2
    ∧ (executorRecordOutcome store jobId invalidIngredientResponse durationMs now).2.status
      = JobStatus.failed
    ∧ (executorRecordOutcome store jobId invalidIngredientResponse durationMs now).2.error.map
        JobError.message = some "invalid ingredient id"
    ∧ (executorRecordOutcome store jobId invalidIngredientResponse durationMs now).2.result.map
        JobResult.status = some 500 := by
  have hx : executorRecordOutcome store jobId invalidIngredientResponse durationMs now
      = mergeJobRecord store jobId
          (executorFailurePatch jobId invalidIngredientResponse durationMs) now := rfl
  refine ⟨?_, rfl, rfl, rfl⟩
  rw [hx]
  exact mergeJobRecord_read store jobId _ now hid

/-- C4, witness at a concrete job id and store. -/
theorem executor_upstream_500_writes_failed_witness :
    readJobRecord
        (executorRecordOutcome emptyStore "job-9" invalidIngredientResponse 12 34).1 "job-9"
      = some (executorRecordOutcome emptyStore "job-9" invalidIngredientResponse 12 34).2
    ∧ (executorRecordOutcome emptyStore "job-9" invalidIngredientResponse 12 34).2.status
      = JobStatus.failed
    ∧ (executorRecordOutcome emptyStore "job-9" invalidIngredientResponse 12 34).2.error.map
        JobError.message = some "invalid ingredient id"
    ∧ (executorRecordOutcome emptyStore "job-9" invalidIngredientResponse 12 34).2.result.map
        JobResult.status = some 500 :=
  executor_upstream_500_writes_failed emptyStore "job-9" 12 34 (by decide)

/-! ### Claim C2 -/

/-- C2, counterexample: `completedAt` is not write-once under arbitrary
merge-patches.  After a first patch whose resulting status is terminal sets
`completedAt` to that patch's timestamp (5), a later patch that itself
carries a `completedAt` property rewrites it to 99. -/
theorem mergeJobRecord_completedAt_rewritten_by_patch :
    (jobTrace "job-4" emptyStore
        [({ status := some JobStatus.completed }, 5),
         ({ completedAt := some 99 }, 7)]).map JobRecord.completedAt
      = [some 5, some 99]
    ∧ (jobTrace "job-4" emptyStore
        [({ status := some JobStatus.completed }, 5),
         ({ completedAt := some 99 }, 7)]).map JobRecord.status
      = [JobStatus.completed, JobStatus.completed]
    ∧ (some 99 : Option Nat) ≠ some 5 := by
  exact ⟨rfl, rfl, by decide⟩

/-- C2 (amended): for every sequence of merge-patches to the same `jobId`
none of which itself carries a `completedAt` property (as is true of every
patch issued in this repository), under a non-decreasing clock: the stored
record's `updatedAt` is non-decreasing across the sequence, and `completedAt`
is unset until the first patch whose resulting status is terminal, is set by
that patch to that patch's own `updatedAt`, and is carried over unchanged by
every later patch. -/
theorem mergeJobRecord_sequence_timestamps
    (jobId : String) (store : Store) (steps : List (JobPatch × Nat))
    (hid : jobId ≠ "")
    (h0 : readJobRecord store jobId = none)
    (hnone : ∀ s ∈ steps, (Prod.fst s).completedAt = none)
    (htimes : List.Chain' (fun a b => Prod.snd a ≤ Prod.snd b) steps) :
    List.Chain' (fun a b => a.updatedAt ≤ b.updatedAt) (jobTrace jobId store steps)
    ∧ (∀ r, (jobTrace jobId store steps).head? = some r →
        r.completedAt = if r.status.isTerminal then some r.updatedAt else none)
    ∧ List.Chain' completedAtStep (jobTrace jobId store steps) := by
  cases steps with
  | nil => simp [jobTrace]
  | cons step rest =>
      obtain ⟨p, t⟩ := step
      have hmerge := mergeJobRecord_of_read_none store jobId p t h0
      have htr : jobTrace jobId store ((p, t) :: rest)
          = mergeRecord (freshJobRecord jobId t) p t ::
            jobTrace jobId
              (writeJobRecord store jobId (mergeRecord (freshJobRecord jobId t) p t))
              rest := by
        simp only [jobTrace]
        rw [hmerge]
      have hread1 :
          readJobRecord
              (writeJobRecord store jobId (mergeRecord (freshJobRecord jobId t) p t))
              jobId
            = some (mergeRecord (freshJobRecord jobId t) p t) :=
        readJobRecord_writeJobRecord _ _ _ hid
      have hp : p.completedAt = none := hnone (p, t) (List.mem_cons_self _ _)
      have htail : ∀ s ∈ rest, (Prod.fst s).completedAt = none :=
        fun s hs => hnone s (List.mem_cons_of_mem _ hs)
      refine ⟨?_, ?_, ?_⟩
      · rw [htr]
        apply jobTrace_updatedAt_chain jobId hid rest _ _ hread1
        rw [mergeRecord_updatedAt]
        exact chain_snd_of_chain' rest (p, t) htimes
      · intro r hr
        rw [htr] at hr
        simp only [List.head?_cons, Option.some_inj] at hr
        subst hr
        rw [mergeRecord_status, mergeRecord_updatedAt]
        exact mergeRecord_completedAt_of_none (freshJobRecord jobId t) p t hp rfl
      · rw [htr]
        exact jobTrace_completedAt_chain jobId hid rest _ _ hread1 htail

/-- C2, witness for the amended theorem on the two-patch sequence
`running` at time 3 then `completed` at time 4. -/
theorem mergeJobRecord_sequence_timestamps_witness :
    List.Chain' (fun a b => a.updatedAt ≤ b.updatedAt)
        (jobTrace "job-5" emptyStore
          [({ status := some JobStatus.running }, 3),
           ({ status := some JobStatus.completed }, 4)])
    ∧ (∀ r, (jobTrace "job-5" emptyStore
          [({ status := some JobStatus.running }, 3),
           ({ status := some JobStatus.completed }, 4)]).head? = some r →
        r.completedAt = if r.status.isTerminal then some r.updatedAt else none)
    ∧ List.Chain' completedAtStep
        (jobTrace "job-5" emptyStore
          [({ status := some JobStatus.running }, 3),
           ({ status := some JobStatus.completed }, 4)]) :=
  mergeJobRecord_sequence_timestamps "job-5" emptyStore
    [({ status := some JobStatus.running }, 3),
     ({ status := some JobStatus.completed }, 4)]
    (by decide) rfl (by decide)
    (List.Chain'.cons (by decide) (List.chain'_singleton _))

/-! ### Claim C5 -/

theorem fileGetJSON_fileAssign (k : String) (v : JobRecord) :
    ∀ d : List (String × JobRecord), fileGetJSON (fileAssign d k v) k = some v := by
  intro d
  induction d with
  | nil => simp [fileAssign, fileGetJSON]
  | cons hd tl ih =>
      obtain ⟨k0, v0⟩ := hd
      by_cases hk : k0 = k
      · simp [fileAssign, fileGetJSON, hk]
      · simp [fileAssign, fileGetJSON, hk, ih]

/-- C5: when the network blob backend's initializer throws (for example the
missing-environment error `MissingBlobsEnvironmentError`), `resolveStore`
switches to the file-backed JSON store — not the in-memory store — without
propagating the error, and through the file store a `setJSON` followed by a
`getJSON` on the same key round-trips the record. -/
theorem resolveStore_file_fallback_roundtrip
    (errName : String) (d : FileData) (k : String) (v : JobRecord) :
    resolveStore (InitResult.err errName) InitResult.ok = StoreBackend.file
    ∧ resolveStore (InitResult.err errName) InitResult.ok ≠ StoreBackend.memory
    ∧ fileGetJSON (fileSetJSON d k v) k = some v :=
  ⟨rfl, fun h => StoreBackend.noConfusion h, fileGetJSON_fileAssign k v d⟩

/-! ### Claim C6 -/

/-- C6: seeded at `max(500, 1500) = 1500` ms with the update
`next(interval) = min(5000, interval * 1.4)`, the poller's wait-interval
sequence is `1500, 2100, 2940, 4116, 5000, 5000, ...` and never exceeds the
5000 ms cap. -/
theorem poller_backoff_sequence :
    backoffSeq (initialAttemptInterval DEFAULT_POLL_INTERVAL_MS) 0 = 1500
    ∧ backoffSeq (initialAttemptInterval DEFAULT_POLL_INTERVAL_MS) 1 = 2100
    ∧ backoffSeq (initialAttemptInterval DEFAULT_POLL_INTERVAL_MS) 2 = 2940
    ∧ backoffSeq (initialAttemptInterval DEFAULT_POLL_INTERVAL_MS) 3 = 4116
    ∧ backoffSeq (initialAttemptInterval DEFAULT_POLL_INTERVAL_MS) 4 = 5000
    ∧ backoffSeq (initialAttemptInterval DEFAULT_POLL_INTERVAL_MS) 5 = 5000
    ∧ ∀ n, backoffSeq (initialAttemptInterval DEFAULT_POLL_INTERVAL_MS) n ≤ 5000 := by
  have h0 : backoffSeq (initialAttemptInterval DEFAULT_POLL_INTERVAL_MS) 0 = 1500 := by
    show initialAttemptInterval DEFAULT_POLL_INTERVAL_MS = 1500
    unfold initialAttemptInterval DEFAULT_POLL_INTERVAL_MS
    rw [max_eq_right (by norm_num : (500 : ℚ) ≤ 1500)]
  have h1 : backoffSeq (initialAttemptInterval DEFAULT_POLL_INTERVAL_MS) 1 = 2100 := by
    show nextInterval (backoffSeq (initialAttemptInterval DEFAULT_POLL_INTERVAL_MS) 0) = 2100
    rw [h0]
    unfold nextInterval MAX_POLL_INTERVAL_MS BACKOFF_FACTOR
    norm_num [min_def]
  have h2 : backoffSeq (initialAttemptInterval DEFAULT_POLL_INTERVAL_MS) 2 = 2940 := by
    show nextInterval (backoffSeq (initialAttemptInterval DEFAULT_POLL_INTERVAL_MS) 1) = 2940
    rw [h1]
    unfold nextInterval MAX_POLL_INTERVAL_MS BACKOFF_FACTOR
    norm_num [min_def]
  have h3 : backoffSeq (initialAttemptInterval DEFAULT_POLL_INTERVAL_MS) 3 = 4116 := by
    show nextInterval (backoffSeq (initialAttemptInterval DEFAULT_POLL_INTERVAL_MS) 2) = 4116
    rw [h2]
    unfold nextInterval MAX_POLL_INTERVAL_MS BACKOFF_FACTOR
    norm_num [min_def]
  have h4 : backoffSeq (initialAttemptInterval DEFAULT_POLL_INTERVAL_MS) 4 = 5000 := by
    show nextInterval (backoffSeq (initialAttemptInterval DEFAULT_POLL_INTERVAL_MS) 3) = 5000
    rw [h3]
    unfold nextInterval MAX_POLL_INTERVAL_MS BACKOFF_FACTOR
    norm_num [min_def]
  have h5 : backoffSeq (initialAttemptInterval DEFAULT_POLL_INTERVAL_MS) 5 = 5000 := by
    show nextInterval (backoffSeq (initialAttemptInterval DEFAULT_POLL_INTERVAL_MS) 4) = 5000
    rw [h4]
    unfold nextInterval MAX_POLL_INTERVAL_MS BACKOFF_FACTOR
    norm_num [min_def]
  refine ⟨h0, h1, h2, h3, h4, h5, ?_⟩
  intro n
  induction n with
  | zero => rw [h0]; norm_num
  | succ m _ =>
      show nextInterval (backoffSeq (initialAttemptInterval DEFAULT_POLL_INTERVAL_MS) m) ≤ 5000
      unfold nextInterval MAX_POLL_INTERVAL_MS
      exact min_le_left _ _

/-! ### Claim C7 -/

theorem initialAttemptInterval_ge_500 (pollIntervalMs : ℚ) :
    500 ≤ initialAttemptInterval pollIntervalMs :=
  le_max_left _ _

theorem nextInterval_ge_500 (interval : ℚ) (h : 500 ≤ interval) :
    500 ≤ nextInterval interval := by
  unfold nextInterval MAX_POLL_INTERVAL_MS BACKOFF_FACTOR
  refine le_min (by norm_num) ?_
  linarith

theorem pollLoopAux_times_out
    (signal : ℕ → Bool) (replies : ℕ → StatusReply) (timeoutMs : ℚ)
    (hs : ∀ k, signal k = false) (hr : ∀ k, nonTerminalReply (replies k)) :
    ∀ (fuel k : ℕ) (elapsed interval : ℚ), 500 ≤ interval →
      timeoutMs < elapsed + 500 * fuel →
      pollLoopAux signal replies timeoutMs (fuel + 1) k elapsed interval
        = some PollOutcome.timedOut := by
  intro fuel
  induction fuel with
  | zero =>
      intro k elapsed interval _ hto
      have hto2 : timeoutMs < elapsed := by
        push_cast at hto
        linarith
      simp [pollLoopAux, hs k, hto2]
  | succ m ih =>
      intro k elapsed interval hint hto
      by_cases hc : timeoutMs < elapsed
      · simp [pollLoopAux, hs k, hc]
      · have hnext : 500 ≤ nextInterval interval := nextInterval_ge_500 interval hint
        have hto2 : timeoutMs < (elapsed + interval) + 500 * m := by
          push_cast at hto ⊢
          linarith
        rcases hr k with hnf | ⟨r, hrec, hterm⟩
        · simp only [pollLoopAux, hs k, Bool.false_eq_true, if_false, hc,
            hnf, pollStep]
          exact ih (k + 1) (elapsed + interval) (nextInterval interval) hnext hto2
        · simp only [pollLoopAux, hs k, Bool.false_eq_true, if_false, hc,
            hrec, pollStep, hterm]
          exact ih (k + 1) (elapsed + interval) (nextInterval interval) hnext hto2

/-- C7: the poll loop never hangs: a 404 from the status endpoint is handled
by the very same continue-and-back-off transition as a still-pending record,
and whenever every status response is a 404 or a non-terminal record (and the
abort signal stays clear), the loop ends with the timeout error as soon as
the elapsed time exceeds `timeoutMs` — `fuel` many iterations of at least
500 ms each are always enough. -/
theorem runValidationJob_times_out_on_nonterminal :
    (∀ (signal : ℕ → Bool) (replies : ℕ → StatusReply)
        (timeoutMs pollIntervalMs : ℚ) (fuel : ℕ),
        (∀ k, signal k = false) →
        (∀ k, nonTerminalReply (replies k)) →
        timeoutMs < 500 * fuel →
        runPollLoop signal replies timeoutMs pollIntervalMs (fuel + 1)
          = some PollOutcome.timedOut)
    ∧ (∀ (elapsed interval : ℚ) (r : JobRecord), r.status.isTerminal = false →
        pollStep (StatusReply.record r) elapsed interval
          = pollStep StatusReply.notFound elapsed interval) := by
  constructor
  · intro signal replies timeoutMs pollIntervalMs fuel hs hr hto
    unfold runPollLoop
    refine pollLoopAux_times_out signal replies timeoutMs hs hr fuel 0 0 _
      (initialAttemptInterval_ge_500 pollIntervalMs) ?_
    simpa using hto
  · intro elapsed interval r h
    simp [pollStep, h]

/-- C7, witness: with every status response a 404, a 1000 ms timeout and four
iterations of fuel, the loop reports the timeout error. -/
theorem runValidationJob_times_out_on_nonterminal_witness :
    runPollLoop (fun _ => false) (fun _ => StatusReply.notFound) 1000 1500 (3 + 1)
      = some PollOutcome.timedOut :=
  runValidationJob_times_out_on_nonterminal.1 (fun _ => false)
    (fun _ => StatusReply.notFound) 1000 1500 3 (fun _ => rfl)
    (fun _ => Or.inl rfl) (by norm_num)

/-! ### Claim C8 -/

/-- Helper for the trigger-response path: when the trigger call resolves with
a response that is not accepted (not ok and not 202), the launcher merges a
`failed` record with the descriptive enqueue-failure message and the reply it
then sends the caller is the 502 error. -/
theorem launcher_trigger_rejected_marks_failed
    (store : Store) (jobId : String) (triggerStatus now : Nat)
    (hid : jobId ≠ "")
    (hok : responseOk triggerStatus = false)
    (h202 : triggerStatus ≠ 202) :
    (launcherAfterTrigger store jobId triggerStatus now).2.statusCode = 502
    ∧ ∃ r : JobRecord,
        readJobRecord (launcherAfterTrigger store jobId triggerStatus now).1 jobId
          = some r
        ∧ r.status = JobStatus.failed
        ∧ r.status.isTerminal = true
        ∧ r.error.map JobError.message = some (enqueueFailureMessage triggerStatus)
        ∧ r.completedAt.isSome = true := by
  have hcond : (!responseOk triggerStatus && triggerStatus != 202) = true := by
    simp [hok, h202]
  have hx : launcherAfterTrigger store jobId triggerStatus now
      = ((mergeJobRecord store jobId (launcherFailurePatch jobId triggerStatus) now).1,
          { statusCode := 502
            message := some "Failed to enqueue background job"
            jobId := some jobId }) := by
    unfold launcherAfterTrigger
    rw [hcond]
    rfl
  rw [hx]
  refine ⟨rfl,
    (mergeJobRecord store jobId (launcherFailurePatch jobId triggerStatus) now).2,
    mergeJobRecord_read store jobId _ now hid, rfl, rfl, rfl, rfl⟩

/-- C8, counterexample: the trigger fetch has no try/catch in the source, so
when it rejects with a transport failure the exception escapes the launcher's
boundary, the store is untouched, and the record for the known `jobId` is
still the non-terminal `pending` one — a failure escapes with no terminal
record written, contrary to the claim. -/
theorem launcher_trigger_exception_escapes :
    (launcherRunTrigger (writeJobRecord emptyStore "job-8" pendingRecordSample)
        "job-8" (TriggerOutcome.exception "fetch failed") 9).2
      = Except.error "fetch failed"
    ∧ (launcherRunTrigger (writeJobRecord emptyStore "job-8" pendingRecordSample)
        "job-8" (TriggerOutcome.exception "fetch failed") 9).1
      = writeJobRecord emptyStore "job-8" pendingRecordSample
    ∧ (readJobRecord
        (launcherRunTrigger (writeJobRecord emptyStore "job-8" pendingRecordSample)
          "job-8" (TriggerOutcome.exception "fetch failed") 9).1 "job-8").map
        JobRecord.status = some JobStatus.pending
    ∧ JobStatus.pending.isTerminal = false :=
  ⟨rfl, rfl, rfl, rfl⟩

/-- C8 (amended): whenever the launcher's trigger call completes with a
response whose status is not accepted (not ok and not 202), the launcher
first merge-patches the job's record to `failed` with the descriptive
enqueue-failure message — so a terminal record is stored for the known
`jobId` — and only then answers the caller with the 502 error.  This
boundary guarantee covers only failures that arrive as trigger responses: a
transport-level rejection of the trigger fetch itself escapes the handler
with no terminal record written (see the counterexample). -/
theorem launcher_trigger_rejected_response_marks_failed
    (store : Store) (jobId : String) (triggerStatus now : Nat)
    (hid : jobId ≠ "")
    (hok : responseOk triggerStatus = false)
    (h202 : triggerStatus ≠ 202) :
    (launcherRunTrigger store jobId (TriggerOutcome.response triggerStatus) now).2
      = Except.ok
          { statusCode := 502
            message := some "Failed to enqueue background job"
            jobId := some jobId }
    ∧ ∃ r : JobRecord,
        readJobRecord
            (launcherRunTrigger store jobId (TriggerOutcome.response triggerStatus) now).1
            jobId
          = some r
        ∧ r.status = JobStatus.failed
        ∧ r.status.isTerminal = true
        ∧ r.error.map JobError.message = some (enqueueFailureMessage triggerStatus)
        ∧ r.completedAt.isSome = true := by
  have h := launcher_trigger_rejected_marks_failed store jobId triggerStatus now
    hid hok h202
  obtain ⟨r, hr⟩ := h.2
  have hreply : (launcherAfterTrigger store jobId triggerStatus now).2
      = { statusCode := 502
          message := some "Failed to enqueue background job"
          jobId := some jobId } := by
    have hcond : (!responseOk triggerStatus && triggerStatus != 202) = true := by
      simp [hok, h202]
    unfold launcherAfterTrigger
    rw [hcond]
    rfl
  refine ⟨?_, r, hr⟩
  show Except.ok (launcherAfterTrigger store jobId triggerStatus now).2 = _
  rw [hreply]

/-- C8, witness for the amended theorem: a concrete 500 trigger response on
an empty store. -/
theorem launcher_trigger_rejected_response_marks_failed_witness :
    (launcherRunTrigger emptyStore "job-7" (TriggerOutcome.response 500) 42).2
      = Except.ok
          { statusCode := 502
            message := some "Failed to enqueue background job"
            jobId := some "job-7" }
    ∧ ∃ r : JobRecord,
        readJobRecord
            (launcherRunTrigger emptyStore "job-7" (TriggerOutcome.response 500) 42).1
            "job-7"
          = some r
        ∧ r.status = JobStatus.failed
        ∧ r.status.isTerminal = true
        ∧ r.error.map JobError.message = some (enqueueFailureMessage 500)
        ∧ r.completedAt.isSome = true :=
  launcher_trigger_rejected_response_marks_failed emptyStore "job-7" 500 42
    (by decide) (by decide) (by decide)

/-! ### Claim C9 -/

/-- C9, counterexample: a launcher response with status 201 — neither 200 nor
202 — is accepted by the submission check (because `Response.ok` covers all
of 200-299), so the poller proceeds to poll instead of throwing. -/
theorem runValidationJob_accepts_201 :
    checkSubmission { status := 201, text := "", parsed := none }
      = SubmissionResult.accepted
    ∧ (201 : Nat) ≠ 200 ∧ (201 : Nat) ≠ 202 :=
  ⟨rfl, by decide, by decide⟩

/-- C9 (amended): `runValidationJob` accepts exactly the 2xx launcher
statuses as successful submission — `startResponse.ok` already covers
200-299, making the explicit 202 alternative redundant — and every status
outside 200-299 is rejected with a submission error before any polling. -/
theorem runValidationJob_submission_accepts_2xx (resp : StartResponse) :
    checkSubmission resp = SubmissionResult.accepted ↔
      200 ≤ resp.status ∧ resp.status ≤ 299 := by
  constructor
  · intro hacc
    by_contra hno
    have h202 : resp.status ≠ 202 := fun heq => hno (by omega)
    have hfalse :
        (responseOk resp.status || resp.status == 202) = false := by
      simp [responseOk, hno, h202]
    unfold checkSubmission submissionAccepted at hacc
    rw [hfalse] at hacc
    simp at hacc
  · intro hrange
    have htrue : (responseOk resp.status || resp.status == 202) = true := by
      simp [responseOk, hrange]
    unfold checkSubmission submissionAccepted
    rw [htrue]
    simp

/-! ### Claim C10 -/

theorem pollWaits_all_ge_500
    (signal : ℕ → Bool) (replies : ℕ → StatusReply) (timeoutMs : ℚ) :
    ∀ (fuel k : ℕ) (elapsed interval : ℚ), 500 ≤ interval →
      ∀ w ∈ pollWaits signal replies timeoutMs fuel k elapsed interval,
        500 ≤ w := by
  intro fuel
  induction fuel with
  | zero =>
      intro k elapsed interval _ w hw
      simp [pollWaits] at hw
  | succ m ih =>
      intro k elapsed interval hint w hw
      by_cases hsig : signal k
      · simp [pollWaits, hsig] at hw
      · by_cases hto : timeoutMs < elapsed
        · simp [pollWaits, hsig, hto] at hw
        · cases hrep : replies k with
          | notFound =>
              simp only [pollWaits, hsig, Bool.false_eq_true, if_false, hto,
                hrep, pollStep, List.mem_cons] at hw
              rcases hw with hw | hw
              · exact hw ▸ hint
              · exact ih (k + 1) (elapsed + interval) (nextInterval interval)
                  (nextInterval_ge_500 interval hint) w hw
          | httpError status text =>
              simp [pollWaits, hsig, hto, hrep, pollStep] at hw
          | record r =>
              by_cases hterm : r.status.isTerminal
              · simp [pollWaits, hsig, hto, hrep, pollStep, hterm] at hw
              · simp only [pollWaits, hsig, Bool.false_eq_true, if_false, hto,
                  hrep, pollStep, hterm, List.mem_cons] at hw
                rcases hw with hw | hw
                · exact hw ▸ hint
                · exact ih (k + 1) (elapsed + interval) (nextInterval interval)
                    (nextInterval_ge_500 interval hint) w hw

/-- C10: the poll loop clamps the caller-supplied interval to a 500 ms floor:
its first wait is exactly `max(500, pollIntervalMs)`, and every wait it ever
sleeps is at least 500 ms, so callers cannot poll faster than every
500 ms. -/
theorem runValidationJob_interval_floor :
    (∀ (signal : ℕ → Bool) (replies : ℕ → StatusReply)
        (timeoutMs pollIntervalMs : ℚ) (fuel : ℕ),
        signal 0 = false → 0 ≤ timeoutMs → nonTerminalReply (replies 0) →
        (runPollWaits signal replies timeoutMs pollIntervalMs (fuel + 1)).head?
          = some (max 500 pollIntervalMs))
    ∧ (∀ (signal : ℕ → Bool) (replies : ℕ → StatusReply)
        (timeoutMs pollIntervalMs : ℚ) (fuel : ℕ),
        ∀ w ∈ runPollWaits signal replies timeoutMs pollIntervalMs fuel,
          500 ≤ w) := by
  constructor
  · intro signal replies timeoutMs pollIntervalMs fuel hs hto hrep
    have hto2 : ¬ timeoutMs < 0 := not_lt.mpr hto
    unfold runPollWaits
    rcases hrep with hnf | ⟨r, hrec, hterm⟩
    · simp [pollWaits, hs, hto2, hnf, pollStep, initialAttemptInterval]
    · simp [pollWaits, hs, hto2, hrec, pollStep, hterm, initialAttemptInterval]
  · intro signal replies timeoutMs pollIntervalMs fuel
    exact pollWaits_all_ge_500 signal replies timeoutMs fuel 0 0
      (initialAttemptInterval pollIntervalMs)
      (initialAttemptInterval_ge_500 pollIntervalMs)

/-- C10, witness: a caller-supplied 100 ms interval is clamped to 500 ms on
the very first wait. -/
theorem runValidationJob_interval_floor_witness :
    (runPollWaits (fun _ => false) (fun _ => StatusReply.notFound)
        10000 100 (0 + 1)).head? = some (max 500 100)
    ∧ max (500 : ℚ) 100 = 500 :=
  ⟨runValidationJob_interval_floor.1 (fun _ => false)
      (fun _ => StatusReply.notFound) 10000 100 0 rfl (by norm_num) (Or.inl rfl),
   max_eq_left (by norm_num)⟩

end Regcheck
